import Mathlib

/-!
Shallow embedding of the Price-Watcher frontend core:
the API client (src/frontend/src/hooks/useTheme.ts, second document:
ApiError, ApiClient with token storage and request dispatch),
the form-state controller and validators (src/unnamed/part_002, useForm.ts),
the registration-page validator (src/unnamed/part_000, RegisterPage), and
the theme resolver (src/frontend/src/hooks/useTheme.ts, first document).

localStorage is modelled as an association list of string keys and values;
fetch outcomes are modelled as an explicit datatype covering transport
failure and a server response with status, status text and the two views of
the response body (the parsed success payload, if JSON parsing succeeds,
and the detail and error fields read from an error body).
-/

/-- Durable key-value storage (localStorage) and, reusing the same shape,
the headers record built by ApiClient.request. -/
abbrev Store := List (String × String)

/-- localStorage.setItem: later writes shadow earlier ones. -/
def Store.set (st : Store) (k v : String) : Store :=
  (k, v) :: st.filter (fun p => !(p.1 == k))

/-- localStorage.getItem: null is None. -/
def Store.get (st : Store) (k : String) : Option String :=
  (st.find? (fun p => p.1 == k)).map Prod.snd

/-- localStorage.removeItem. -/
def Store.remove (st : Store) (k : String) : Store :=
  st.filter (fun p => !(p.1 == k))

/-- JavaScript truthiness of a string-or-null value: null and the empty
string are falsy. -/
def jsTruthy : Option String → Bool
  | none => false
  | some s => !(s == "")

/-- The JavaScript idiom a or-else b on string-or-undefined values
(the binary or operator returns its right operand when the left one is
undefined or the empty string). -/
def jsStrOr (v : Option String) (fallback : String) : String :=
  match v with
  | none => fallback
  | some s => if s == "" then fallback else s

/-- JavaScript falsiness of a string-or-undefined value, as a predicate:
absent or the empty string. -/
def jsFalsy (v : Option String) : Prop :=
  v = none ∨ v = some ""

/-- ApiError from the API client: a message plus an optional HTTP status. -/
structure ApiError where
  message : String
  status : Option Nat
deriving DecidableEq, Repr

/-- User record returned by the backend. -/
structure User where
  id : Nat
  username : String
  email : String
  first_name : String
  last_name : String
deriving DecidableEq, Repr

/-- Body of a successful login or register response. -/
structure LoginResponse where
  access : String
  user : User
deriving DecidableEq, Repr

/-- Payload posted by register. -/
structure RegisterData where
  username : String
  email : String
  password : String
  first_name : Option String
  last_name : Option String
deriving DecidableEq, Repr

/-- Payload posted by login. -/
structure LoginData where
  username : String
  password : String
deriving DecidableEq, Repr

/-- Body of a successful refresh response. -/
structure RefreshResponse where
  access : String
deriving DecidableEq, Repr

/-- Outcome of one fetch call as observed by ApiClient.request:
either the transport fails (fetch rejects), or the server answers with a
status, a status text, the success payload as parsed from the body when it
is 2xx and parses as JSON (okBody, none when response.json() fails), and
the detail and error fields of the body as read on the error path
(none models an absent field, which is also what the catch-to-empty-object
fallback produces on an unparseable error body). -/
inductive FetchOutcome (T : Type) where
  | netErr : FetchOutcome T
  | resp (status : Nat) (statusText : String) (okBody : Option T)
      (detail : Option String) (err : Option String) : FetchOutcome T
deriving DecidableEq, Repr

/-- response.ok of the fetch API: status in the range 200-299. -/
def responseOk (status : Nat) : Bool :=
  200 ≤ status && status < 300

/-- The fallback error message built by ApiClient.request. -/
def fallbackMsg (status : Nat) (statusText : String) : String :=
  "HTTP " ++ toString status ++ ": " ++ statusText

/-- Failure channel of ApiClient.request: either an ApiError built or
rethrown inside the method, or a raw non-ApiError rejection. The raw case
arises on the 2xx path: the method ends with a plain (un-awaited)
`return response.json()`, so when that promise rejects on an unparseable
body the rejection is adopted by the caller directly, after the try block
has already been exited, and never reaches the catch. -/
inductive RequestFailure where
  | apiError (e : ApiError) : RequestFailure
  | raw : RequestFailure
deriving DecidableEq, Repr

/-- ApiClient.request: on transport failure, the generic network ApiError
with no status (fetch rejects inside the try and the catch wraps it); on a
non-2xx response, an ApiError whose message chains detail, error and the
fallback with JavaScript truthiness and whose status is the HTTP status
(thrown inside the try, recognized by the catch as an ApiError and
rethrown unchanged); on a parsed 2xx body, the payload; on a 2xx body that
fails JSON parsing, the raw parse rejection — the un-awaited
`return response.json()` lets it bypass the catch. -/
def requestResult {T : Type} : FetchOutcome T → Except RequestFailure T
  | .netErr => .error (.apiError ⟨"Network error or server unavailable", none⟩)
  | .resp status statusText okBody detail err =>
    if responseOk status then
      match okBody with
      | some v => .ok v
      | none => .error .raw
    else
      .error (.apiError
        ⟨jsStrOr detail (jsStrOr err (fallbackMsg status statusText)),
          some status⟩)

/-- The headers record built by ApiClient.request: Content-Type, then the
caller's extra headers, then Authorization Bearer when the access token is
truthy (non-null and non-empty). -/
def buildHeaders (accessToken : Option String) (extra : Store) : Store :=
  let base := extra.foldl (fun acc p => Store.set acc p.1 p.2)
    [("Content-Type", "application/json")]
  if jsTruthy accessToken then
    Store.set base "Authorization" ("Bearer " ++ accessToken.getD "")
  else
    base

/-- ApiClient instance state: the in-memory access token (null when absent). -/
structure ApiClient where
  accessToken : Option String
deriving DecidableEq, Repr

/-- ApiClient.loadTokenFromStorage, run by the constructor: a fresh client
reads key access_token from storage. -/
def loadTokenFromStorage (st : Store) : ApiClient :=
  ⟨Store.get st "access_token"⟩

/-- ApiClient.setAccessToken: set the in-memory token and persist it. -/
def ApiClient.setAccessToken (c : ApiClient) (st : Store) (token : String) :
    ApiClient × Store :=
  (⟨some token⟩, Store.set st "access_token" token)

/-- ApiClient.clearAccessToken: null the in-memory token and remove the
persisted copy. -/
def ApiClient.clearAccessToken (c : ApiClient) (st : Store) :
    ApiClient × Store :=
  (⟨none⟩, Store.remove st "access_token")

/-- ApiClient.isAuthenticated: accessToken strictly differs from null. -/
def ApiClient.isAuthenticated (c : ApiClient) : Bool :=
  c.accessToken.isSome

/-- Whether a promise resolved (ok) rather than rejected (error). -/
def resolves {T : Type} : Except RequestFailure T → Bool
  | .ok _ => true
  | .error _ => false

/-- ApiClient.login: await request; on success store the returned access
token and return the response; a request error propagates unchanged. -/
def login (c : ApiClient) (st : Store) (outcome : FetchOutcome LoginResponse) :
    Except RequestFailure LoginResponse × ApiClient × Store :=
  match requestResult outcome with
  | .ok resp =>
      let s := ApiClient.setAccessToken c st resp.access
      (.ok resp, s.1, s.2)
  | .error e2 => (.error e2, c, st)

/-- ApiClient.register: same shape as login (the posted data only feeds the
request body, which the outcome already accounts for). -/
def register (c : ApiClient) (st : Store) (data : RegisterData)
    (outcome : FetchOutcome LoginResponse) :
    Except RequestFailure LoginResponse × ApiClient × Store :=
  match requestResult outcome with
  | .ok resp =>
      let s := ApiClient.setAccessToken c st resp.access
      (.ok resp, s.1, s.2)
  | .error e2 => (.error e2, c, st)

/-- ApiClient.logout: await request first; clearAccessToken runs only when
the awaited request resolved, so a rejected request leaves the token. -/
def logout (c : ApiClient) (st : Store) (outcome : FetchOutcome Unit) :
    Except RequestFailure Unit × ApiClient × Store :=
  match requestResult outcome with
  | .ok _ =>
      let s := ApiClient.clearAccessToken c st
      (.ok (), s.1, s.2)
  | .error e2 => (.error e2, c, st)

/-- ApiClient.refreshToken: on success store the rotated token. -/
def refreshToken (c : ApiClient) (st : Store)
    (outcome : FetchOutcome RefreshResponse) :
    Except RequestFailure RefreshResponse × ApiClient × Store :=
  match requestResult outcome with
  | .ok resp =>
      let s := ApiClient.setAccessToken c st resp.access
      (.ok resp, s.1, s.2)
  | .error e2 => (.error e2, c, st)

/-- ApiClient.getUserProfile: a plain request, no token mutation. -/
def getUserProfile (c : ApiClient) (st : Store) (outcome : FetchOutcome User) :
    Except RequestFailure User × ApiClient × Store :=
  (requestResult outcome, c, st)

/-- Behavior of the caller-supplied async submit callback: the await inside
useForm.handleSubmit either completes or raises. -/
inductive CallbackBehavior where
  | succeeds : CallbackBehavior
  | throws : CallbackBehavior
deriving DecidableEq, Repr

/-- Observables of one useForm.handleSubmit run: the error record and
isSubmitting flag after the run, whether the submit callback was invoked,
the isSubmitting value seen while the callback ran, and whether
handleSubmit itself re-raised the callback's exception. -/
structure SubmitResult where
  errors : List (String × String)
  isSubmitting : Bool
  callbackInvoked : Bool
  submittingDuringCallback : Bool
  rethrown : Bool
deriving DecidableEq, Repr

/-- useForm.handleSubmit: prevent default, clear errors, and when a
validator is supplied and its returned record has at least one key
(Object.keys(validationErrors).length greater than zero) store that record
and return without submitting. Otherwise set isSubmitting, await the
callback inside try-catch-finally (the catch only logs, the finally clears
isSubmitting), so the final state does not depend on whether the callback
succeeded or threw. -/
def handleSubmit {T : Type} (validate : Option (T → List (String × String)))
    (cb : CallbackBehavior) (values : T) (submitting0 : Bool) : SubmitResult :=
  let blocked (ve : List (String × String)) : SubmitResult :=
    { errors := ve, isSubmitting := submitting0, callbackInvoked := false,
      submittingDuringCallback := false, rethrown := false }
  let submitted : SubmitResult :=
    { errors := [], isSubmitting := false, callbackInvoked := true,
      submittingDuringCallback := true, rethrown := false }
  match validate with
  | some v =>
      let ve := v values
      if 0 < ve.length then blocked ve else submitted
  | none => submitted

/-- Whether an error record carries at least one non-empty message. -/
def hasNonEmptyMessage (l : List (String × String)) : Bool :=
  l.any (fun p => !(p.2 == ""))

/-- JavaScript String.prototype.trim: drop leading and trailing
whitespace. -/
def jsTrim (s : String) : String :=
  ⟨((s.data.dropWhile Char.isWhitespace).reverse.dropWhile
      Char.isWhitespace).reverse⟩

/-- validators.required. -/
def validators_required (value : String) : String :=
  if jsTrim value == "" then "This field is required" else ""

/-- The character class of the email regex: anything but whitespace and
the at sign. -/
def isEmailChar (c : Char) : Bool :=
  !c.isWhitespace && !(c == '@')

/-- One-or-more repetition of the email character class. -/
def emailSeg (l : List Char) : Bool :=
  !l.isEmpty && l.all isEmailChar

/-- All ways of writing a list as a concatenation of two lists. -/
def splits : List Char → List (List Char × List Char)
  | [] => [([], [])]
  | c :: cs => ([], c :: cs) :: (splits cs).map (fun p => (c :: p.1, p.2))

/-- Whether a list starts with the given character. -/
def headIs (c : Char) : List Char → Bool
  | [] => false
  | x :: _ => x == c

/-- The email regex test, anchored at both ends: the string decomposes as
segment, at sign, segment, dot, segment, with each segment one or more
characters that are neither whitespace nor an at sign. -/
def emailTest (value : String) : Bool :=
  (splits value.data).any fun p =>
    emailSeg p.1 && headIs '@' p.2 &&
      ((splits p.2.tail).any fun q =>
        emailSeg q.1 && headIs '.' q.2 && emailSeg q.2.tail)

/-- validators.email. -/
def validators_email (value : String) : String :=
  if !(emailTest value) then "Please enter a valid email address" else ""

/-- validators.minLength. -/
def validators_minLength (min : Nat) (value : String) : String :=
  if value.length < min then
    "Must be at least " ++ toString min ++ " characters"
  else ""

/-- The character class of the username regex. -/
def usernameChar (c : Char) : Bool :=
  ('a' ≤ c && c ≤ 'z') || ('A' ≤ c && c ≤ 'Z') ||
    ('0' ≤ c && c ≤ '9') || c == '_'

/-- validators.username. -/
def validators_username (value : String) : String :=
  if jsTrim value == "" then "Username is required"
  else if value.length < 3 then "Username must be at least 3 characters"
  else if !(value.data.all usernameChar) then
    "Username can only contain letters, numbers, and underscores"
  else ""

/-- validators.password. -/
def validators_password (value : String) : String :=
  if value == "" then "Password is required"
  else if value.length < 8 then "Password must be at least 8 characters"
  else ""

/-- The registration form's field values (RegisterPage). -/
structure RegisterFormData where
  username : String
  email : String
  password : String
  confirmPassword : String
  first_name : String
  last_name : String
deriving DecidableEq, Repr

/-- RegisterPage.validateForm: conditionally add the username, email and
password validator messages (JavaScript truthiness keeps only non-empty
ones), then the cross-field confirmation entry when the two password
fields differ. -/
def validateForm (values : RegisterFormData) : List (String × String) :=
  (if validators_username values.username == "" then []
    else [("username", validators_username values.username)]) ++
  (if validators_email values.email == "" then []
    else [("email", validators_email values.email)]) ++
  (if validators_password values.password == "" then []
    else [("password", validators_password values.password)]) ++
  (if values.password == values.confirmPassword then []
    else [("confirmPassword", "Passwords do not match")])

/-- Theme preference of useTheme. -/
inductive Theme where
  | light : Theme
  | dark : Theme
  | system : Theme
deriving DecidableEq, Repr

/-- Resolved theme of useTheme: always a concrete value. -/
inductive ResolvedTheme where
  | light : ResolvedTheme
  | dark : ResolvedTheme
deriving DecidableEq, Repr

/-- Storage spelling of a preference. -/
def themeKey : Theme → String
  | .light => "light"
  | .dark => "dark"
  | .system => "system"

/-- The updateResolvedTheme effect body: for preference system consult the
prefers-color-scheme media query, otherwise the preference itself. -/
def updateResolvedTheme (theme : Theme) (osPrefersDark : Bool) : ResolvedTheme :=
  match theme with
  | .system => if osPrefersDark then .dark else .light
  | .light => .light
  | .dark => .dark

/-- setThemeAndPersist: set the preference and write it to storage. -/
def setThemeAndPersist (st : Store) (newTheme : Theme) : Theme × Store :=
  (newTheme, Store.set st "theme" (themeKey newTheme))

/-- toggleTheme: persist the flip of the current resolved value as the new
explicit preference. -/
def toggleTheme (resolvedTheme : ResolvedTheme) (st : Store) : Theme × Store :=
  setThemeAndPersist st
    (if resolvedTheme == ResolvedTheme.light then Theme.dark else Theme.light)

/-- The message selection of claim C2 read literally over field presence:
the detail field when present, else the error field when present, else
the fallback. To be compared with the code's truthiness-based chain. -/
def specSelectMessage (detail err : Option String) (fb : String) : String :=
  detail.getD (err.getD fb)

/-- The email pattern as the spec words it: non-space-chars, at sign,
non-space-chars, dot, non-space-chars, each segment non-empty and drawn
from the class excluding whitespace and the at sign. -/
def matchesEmailPattern (v : String) : Prop :=
  ∃ a b c : List Char,
    v.data = a ++ '@' :: (b ++ '.' :: c) ∧
    a ≠ [] ∧ b ≠ [] ∧ c ≠ [] ∧
    a.all isEmailChar = true ∧ b.all isEmailChar = true ∧
    c.all isEmailChar = true

/-- Reading back the key just written returns the written value. -/
theorem Store.get_set_self (st : Store) (k v : String) :
    Store.get (Store.set st k v) k = some v := by
  simp [Store.get, Store.set]

/-- Reading back a removed key returns null. -/
theorem Store.get_remove_self (st : Store) (k : String) :
    Store.get (Store.remove st k) k = none := by
  simp only [Store.get, Store.remove]
  rw [List.find?_eq_none.mpr]
  · rfl
  · intro x hx
    rcases List.mem_filter.mp hx with ⟨_, hq⟩
    simpa using hq

/-- splits enumerates exactly the two-part decompositions of a list. -/
theorem mem_splits (cs l r : List Char) : (l, r) ∈ splits cs ↔ cs = l ++ r := by
  induction cs generalizing l r with
  | nil =>
      cases l <;> simp [splits]
  | cons c cs ih =>
      constructor
      · intro hmem
        rw [splits] at hmem
        rcases List.mem_cons.mp hmem with heq | hmapped
        · injection heq with h1 h2
          subst h1
          subst h2
          rfl
        · obtain ⟨p, hp, heq⟩ := List.mem_map.mp hmapped
          injection heq with h1 h2
          subst h1
          subst h2
          exact congrArg (List.cons c) ((ih p.1 p.2).mp hp)
      · intro h
        cases l with
        | nil =>
            subst h
            rw [splits]
            exact List.mem_cons_self _ _
        | cons x xs =>
            injection h with h1 h2
            subst h1
            rw [splits]
            exact List.mem_cons_of_mem _
              (List.mem_map.mpr ⟨(xs, r), (ih xs r).mpr h2, rfl⟩)

/-- emailSeg is the one-or-more repetition of the email character class. -/
theorem emailSeg_eq_true (l : List Char) :
    emailSeg l = true ↔ l ≠ [] ∧ l.all isEmailChar = true := by
  cases l <;> simp [emailSeg]

/-- The executable email regex test agrees with the declarative pattern. -/
theorem emailTest_iff (v : String) :
    emailTest v = true ↔ matchesEmailPattern v := by
  constructor
  · intro h
    rw [emailTest, List.any_eq_true] at h
    obtain ⟨⟨a, r⟩, hmem, hp⟩ := h
    simp only [Bool.and_eq_true] at hp
    obtain ⟨⟨ha, hhead⟩, hinner⟩ := hp
    cases r with
    | nil => simp [headIs] at hhead
    | cons ch m =>
      simp only [headIs, beq_iff_eq] at hhead
      subst hhead
      rw [List.any_eq_true] at hinner
      obtain ⟨⟨b, r2⟩, hmem2, hq⟩ := hinner
      simp only [Bool.and_eq_true] at hq
      obtain ⟨⟨hb, hhead2⟩, hc⟩ := hq
      cases r2 with
      | nil => simp [headIs] at hhead2
      | cons ch2 cseg =>
        simp only [headIs, beq_iff_eq] at hhead2
        subst hhead2
        simp only [List.tail_cons] at hmem2 hc
        rw [mem_splits] at hmem hmem2
        obtain ⟨ha1, ha2⟩ := (emailSeg_eq_true a).mp ha
        obtain ⟨hb1, hb2⟩ := (emailSeg_eq_true b).mp hb
        obtain ⟨hc1, hc2⟩ := (emailSeg_eq_true cseg).mp hc
        exact ⟨a, b, cseg, by rw [hmem, hmem2], ha1, hb1, hc1, ha2, hb2, hc2⟩
  · rintro ⟨a, b, c, hv, ha, hb, hc, haAll, hbAll, hcAll⟩
    rw [emailTest, List.any_eq_true]
    refine ⟨(a, '@' :: (b ++ '.' :: c)), (mem_splits _ _ _).mpr hv, ?_⟩
    simp only [Bool.and_eq_true]
    refine ⟨⟨(emailSeg_eq_true a).mpr ⟨ha, haAll⟩, by simp [headIs]⟩, ?_⟩
    rw [List.any_eq_true]
    refine ⟨(b, '.' :: c), (mem_splits _ _ _).mpr rfl, ?_⟩
    simp only [Bool.and_eq_true]
    exact ⟨⟨(emailSeg_eq_true b).mpr ⟨hb, hbAll⟩, by simp [headIs]⟩,
      (emailSeg_eq_true c).mpr ⟨hc, hcAll⟩⟩

/-- C1 (amended): logout clears the local Credential exactly when the
logout request resolved successfully (a 2xx response whose body parsed);
after such a resolution isAuthenticated() is false and the persisted copy
is gone. When the server answers non-2xx or the transport fails, logout()
rejects and both the in-memory token and the persisted copy are unchanged
(the claim's "cleared regardless of the server's response code" does not
hold on the code). -/
theorem logout_clear_only_after_success (c : ApiClient) (st : Store)
    (outcome : FetchOutcome Unit) :
    (resolves (logout c st outcome).1 = true →
      (logout c st outcome).2.1.isAuthenticated = false ∧
      Store.get (logout c st outcome).2.2 "access_token" = none) ∧
    (resolves (logout c st outcome).1 = false →
      (logout c st outcome).2.1 = c ∧ (logout c st outcome).2.2 = st) := by
  cases hreq : requestResult outcome with
  | ok u =>
      simp [logout, hreq, resolves, ApiClient.clearAccessToken,
        ApiClient.isAuthenticated, Store.get_remove_self]
  | error e2 => simp [logout, hreq, resolves]

/-- C1 witness: a successful logout at a concrete state clears the token. -/
theorem logout_clear_only_after_success_witness :
    (logout ⟨some "tok"⟩ [("access_token", "tok")]
        (.resp 204 "No Content" (some ()) none none)).2.1.isAuthenticated = false ∧
    Store.get (logout ⟨some "tok"⟩ [("access_token", "tok")]
        (.resp 204 "No Content" (some ()) none none)).2.2 "access_token" = none :=
  (logout_clear_only_after_success ⟨some "tok"⟩ [("access_token", "tok")]
      (.resp 204 "No Content" (some ()) none none)).1 (by decide)

/-- C1 counterexample: on a 500 response the logout() call rejects and the
local Credential is NOT cleared — isAuthenticated() still returns true and
the persisted copy is still present, refuting the claim that the Credential
is cleared regardless of the server's response code. -/
theorem logout_rejects_keeps_credential :
    (logout ⟨some "tok"⟩ [("access_token", "tok")]
        (.resp 500 "Internal Server Error" (some ()) none none)).1 =
      Except.error (RequestFailure.apiError
        ⟨"HTTP 500: Internal Server Error", some 500⟩) ∧
    (logout ⟨some "tok"⟩ [("access_token", "tok")]
        (.resp 500 "Internal Server Error" (some ()) none none)).2.1.isAuthenticated
      = true ∧
    Store.get (logout ⟨some "tok"⟩ [("access_token", "tok")]
        (.resp 500 "Internal Server Error" (some ()) none none)).2.2 "access_token"
      = some "tok" :=
  ⟨rfl, rfl, rfl⟩

/-- C2 (amended): failure taxonomy of ApiClient.request. A transport
failure rejects with the exact message "Network error or server
unavailable" and an absent status. A non-2xx response rejects with an
ApiError whose status is the HTTP status and whose message is the detail
field when present and non-empty, else the error field when present and
non-empty, else the fallback string; both of these failure kinds are the
single ApiError kind, so callers distinguish them by inspecting status.
(The claim's presence-based selection is amended to the code's
truthiness-based one: a present-but-empty field is skipped. The separate
raw-rejection path on a 2xx unparseable body is the subject of C9.) -/
theorem request_failure_taxonomy (T : Type) (s : Nat) (txt : String)
    (ob : Option T) (d e : Option String) :
    requestResult (T := T) FetchOutcome.netErr =
      Except.error (RequestFailure.apiError
        ⟨"Network error or server unavailable", none⟩) ∧
    (responseOk s = false →
      ∃ m : String,
        requestResult (FetchOutcome.resp s txt ob d e) =
          Except.error (RequestFailure.apiError ⟨m, some s⟩) ∧
        (∀ ds : String, d = some ds → ds ≠ "" → m = ds) ∧
        (jsFalsy d → ∀ es : String, e = some es → es ≠ "" → m = es) ∧
        (jsFalsy d → jsFalsy e → m = fallbackMsg s txt)) := by
  refine ⟨rfl, fun h =>
    ⟨jsStrOr d (jsStrOr e (fallbackMsg s txt)), ?_, ?_, ?_, ?_⟩⟩
  · simp [requestResult, h]
  · rintro ds rfl hne
    simp [jsStrOr, hne]
  · rintro (rfl | rfl) es rfl hne <;> simp [jsStrOr, hne]
  · rintro (rfl | rfl) (rfl | rfl) <;> simp [jsStrOr]

/-- C2 witness: a 401 with a detail field rejects with that message and
status 401. -/
theorem request_failure_taxonomy_witness :
    requestResult (T := Unit)
        (FetchOutcome.resp 401 "Unauthorized" none
          (some "Invalid credentials") none) =
      Except.error (RequestFailure.apiError ⟨"Invalid credentials", some 401⟩) := by
  obtain ⟨m, hm, hd, h2, h3⟩ :=
    (request_failure_taxonomy Unit 401 "Unauthorized" none
      (some "Invalid credentials") none).2 (by decide)
  rw [hd "Invalid credentials" rfl (by decide)] at hm
  exact hm

/-- C2 counterexample: the response body's detail field is present (with
value the empty string) yet the rejection message is the fallback string,
not the detail field — the code chains the fields by JavaScript
truthiness, not by presence as the claim states. -/
theorem request_message_skips_empty_detail :
    specSelectMessage (some "") none (fallbackMsg 404 "Not Found") = "" ∧
    requestResult (T := Unit)
        (FetchOutcome.resp 404 "Not Found" none (some "") none) =
      Except.error (RequestFailure.apiError ⟨"HTTP 404: Not Found", some 404⟩) ∧
    ("HTTP 404: Not Found" : String) ≠ "" :=
  ⟨rfl, rfl, by decide⟩

/-- C3: on a successful login or register response, the client stores the
server-returned access token as the active Credential (in memory and in
storage key access_token, exactly the returned token) and returns the
token-user pair from the server response; the client is then
authenticated. -/
theorem login_register_store_returned_token (c : ApiClient) (st : Store)
    (data : RegisterData) (outcome : FetchOutcome LoginResponse)
    (resp : LoginResponse) (h : requestResult outcome = Except.ok resp) :
    login c st outcome =
      (Except.ok resp, ⟨some resp.access⟩,
        Store.set st "access_token" resp.access) ∧
    register c st data outcome =
      (Except.ok resp, ⟨some resp.access⟩,
        Store.set st "access_token" resp.access) ∧
    Store.get (login c st outcome).2.2 "access_token" = some resp.access ∧
    (login c st outcome).2.1.isAuthenticated = true := by
  refine ⟨?_, ?_, ?_, ?_⟩ <;>
    simp [login, register, h, ApiClient.setAccessToken,
      ApiClient.isAuthenticated, Store.get_set_self]

/-- C3 witness at a concrete 200 response. -/
theorem login_register_store_returned_token_witness :
    login ⟨none⟩ []
        (.resp 200 "OK"
          (some ⟨"tok123", ⟨1, "alice", "alice@mail.com", "", ""⟩⟩)
          none none) =
      (Except.ok ⟨"tok123", ⟨1, "alice", "alice@mail.com", "", ""⟩⟩,
        ⟨some "tok123"⟩, Store.set [] "access_token" "tok123") ∧
    register ⟨none⟩ [] ⟨"alice", "alice@mail.com", "secretpw", none, none⟩
        (.resp 200 "OK"
          (some ⟨"tok123", ⟨1, "alice", "alice@mail.com", "", ""⟩⟩)
          none none) =
      (Except.ok ⟨"tok123", ⟨1, "alice", "alice@mail.com", "", ""⟩⟩,
        ⟨some "tok123"⟩, Store.set [] "access_token" "tok123") ∧
    Store.get (login ⟨none⟩ []
        (.resp 200 "OK"
          (some ⟨"tok123", ⟨1, "alice", "alice@mail.com", "", ""⟩⟩)
          none none)).2.2 "access_token" = some "tok123" ∧
    (login ⟨none⟩ []
        (.resp 200 "OK"
          (some ⟨"tok123", ⟨1, "alice", "alice@mail.com", "", ""⟩⟩)
          none none)).2.1.isAuthenticated = true :=
  login_register_store_returned_token ⟨none⟩ []
    ⟨"alice", "alice@mail.com", "secretpw", none, none⟩
    (.resp 200 "OK"
      (some ⟨"tok123", ⟨1, "alice", "alice@mail.com", "", ""⟩⟩) none none)
    ⟨"tok123", ⟨1, "alice", "alice@mail.com", "", ""⟩⟩ rfl

/-- C5 (amended): for every NON-EMPTY token t, setAccessToken t followed by
a process restart (a fresh client constructed over the persisted storage)
yields isAuthenticated() true and requests carry Authorization Bearer t.
(For the empty token the first conjunct holds but the header is absent,
see the counterexample and C10.) -/
theorem token_roundtrip_nonempty_token (c : ApiClient) (st : Store)
    (t : String) (h : t ≠ "") :
    (loadTokenFromStorage (ApiClient.setAccessToken c st t).2).isAuthenticated
      = true ∧
    Store.get (buildHeaders (loadTokenFromStorage
        (ApiClient.setAccessToken c st t).2).accessToken [])
      "Authorization" = some ("Bearer " ++ t) := by
  have hget : Store.get (Store.set st "access_token" t) "access_token" =
      some t := Store.get_set_self st "access_token" t
  constructor
  · simp [loadTokenFromStorage, ApiClient.setAccessToken, hget,
      ApiClient.isAuthenticated]
  · simp [loadTokenFromStorage, ApiClient.setAccessToken, hget,
      buildHeaders, jsTruthy, h, Store.get_set_self]

/-- C5 witness at the concrete token tok123. -/
theorem token_roundtrip_nonempty_token_witness :
    (loadTokenFromStorage
        (ApiClient.setAccessToken ⟨none⟩ [] "tok123").2).isAuthenticated
      = true ∧
    Store.get (buildHeaders (loadTokenFromStorage
        (ApiClient.setAccessToken ⟨none⟩ [] "tok123").2).accessToken [])
      "Authorization" = some ("Bearer " ++ "tok123") :=
  token_roundtrip_nonempty_token ⟨none⟩ [] "tok123" (by decide)

/-- C5 counterexample: round-tripping the EMPTY token gives
isAuthenticated() true yet no Authorization header at all, so the claim's
"every subsequent request carries Authorization Bearer t" fails at t
empty. -/
theorem token_roundtrip_empty_token_no_header :
    (loadTokenFromStorage
        (ApiClient.setAccessToken ⟨none⟩ [] "").2).isAuthenticated = true ∧
    Store.get (buildHeaders (loadTokenFromStorage
        (ApiClient.setAccessToken ⟨none⟩ [] "").2).accessToken [])
      "Authorization" = none ∧
    Store.get (buildHeaders (loadTokenFromStorage
        (ApiClient.setAccessToken ⟨none⟩ [] "").2).accessToken [])
      "Authorization" ≠ some ("Bearer " ++ "") :=
  ⟨by decide, by decide, by decide⟩

/-- C9 (amended): a 2xx response whose body fails to parse as JSON makes
request reject with the RAW parse rejection, not an ApiError — the method
ends in an un-awaited `return response.json()`, so the parse failure
bypasses the try-catch entirely — and every operation built on request
(login, register, logout, refreshToken, getUserProfile) propagates that
raw rejection, leaving the client and storage untouched. Such a failure
is therefore distinguishable from a transport failure, contrary to the
original claim. -/
theorem ok_parse_failure_rejects_raw_error (c : ApiClient)
    (st : Store) (data : RegisterData) (s : Nat) (txt : String)
    (d e : Option String) (h : responseOk s = true) :
    requestResult (T := LoginResponse) (.resp s txt none d e) =
      Except.error RequestFailure.raw ∧
    login c st (.resp s txt none d e) =
      (Except.error RequestFailure.raw, c, st) ∧
    register c st data (.resp s txt none d e) =
      (Except.error RequestFailure.raw, c, st) ∧
    logout c st (.resp s txt none d e) =
      (Except.error RequestFailure.raw, c, st) ∧
    refreshToken c st (.resp s txt none d e) =
      (Except.error RequestFailure.raw, c, st) ∧
    getUserProfile c st (.resp s txt none d e) =
      (Except.error RequestFailure.raw, c, st) := by
  refine ⟨?_, ?_, ?_, ?_, ?_, ?_⟩ <;>
    simp [requestResult, h, login, register, logout, refreshToken,
      getUserProfile]

/-- C9 witness at a concrete 200 response with unparseable body. -/
theorem ok_parse_failure_rejects_raw_error_witness :
    login ⟨some "tok"⟩ [("access_token", "tok")]
        (.resp 200 "OK" none none none) =
      (Except.error RequestFailure.raw, ⟨some "tok"⟩,
        [("access_token", "tok")]) :=
  (ok_parse_failure_rejects_raw_error ⟨some "tok"⟩
    [("access_token", "tok")] ⟨"u", "u@m.co", "password1", none, none⟩
    200 "OK" none none (by decide)).2.1

/-- C9 counterexample: at a concrete 2xx response with unparseable body
the request rejects with the raw parse failure, which is a different
value from the network ApiError the claim asserts (the value a transport
failure produces), so the malformed-body success is NOT reported as a
transport failure and the two are not indistinguishable. -/
theorem ok_parse_failure_not_network_error :
    requestResult (T := Unit) (FetchOutcome.resp 200 "OK" none none none) =
      Except.error RequestFailure.raw ∧
    requestResult (T := Unit) FetchOutcome.netErr =
      Except.error (RequestFailure.apiError
        ⟨"Network error or server unavailable", none⟩) ∧
    RequestFailure.raw ≠
      RequestFailure.apiError ⟨"Network error or server unavailable", none⟩ :=
  ⟨rfl, rfl, by decide⟩

/-- C10: after setAccessToken with the empty string, isAuthenticated()
returns true (the stored token is non-null) yet the built headers carry no
Authorization entry (header attachment tests JavaScript truthiness, which
the empty string fails) — the two notions of holding a Credential disagree
on the empty string. -/
theorem empty_token_auth_header_mismatch (c : ApiClient) (st : Store) :
    (ApiClient.setAccessToken c st "").1.isAuthenticated = true ∧
    buildHeaders (ApiClient.setAccessToken c st "").1.accessToken [] =
      [("Content-Type", "application/json")] ∧
    Store.get (buildHeaders (ApiClient.setAccessToken c st "").1.accessToken [])
      "Authorization" = none :=
  ⟨rfl, rfl, rfl⟩

/-- C4 (amended): handleSubmit with a validator blocks exactly when the
returned error record is non-empty AS A RECORD (the code counts keys, so
an entry with an empty message also blocks): in that case all returned
entries are stored at once, the callback is never invoked and isSubmitting
is untouched. Otherwise the controller enters the submitting state (the
callback observes isSubmitting true), invokes the callback, and ends
non-submitting with no exception re-thrown, identically for a succeeding
and for a throwing callback. -/
theorem handleSubmit_blocks_iff_entries (T : Type)
    (v : T → List (String × String)) (cb : CallbackBehavior) (values : T)
    (s0 : Bool) :
    (v values ≠ [] →
      handleSubmit (some v) cb values s0 =
        ⟨v values, s0, false, false, false⟩) ∧
    (v values = [] →
      handleSubmit (some v) cb values s0 = ⟨[], false, true, true, false⟩) := by
  constructor
  · intro h
    have hl : 0 < (v values).length := List.length_pos.mpr h
    simp [handleSubmit, hl]
  · intro h
    simp [handleSubmit, h]

/-- C4 witness: a validator returning one entry blocks a throwing callback;
an always-empty validator lets a throwing callback run, swallowed. -/
theorem handleSubmit_blocks_iff_entries_witness :
    handleSubmit (T := Unit)
        (some (fun _ => [("username", "Username is required")]))
        CallbackBehavior.throws () false =
      ⟨[("username", "Username is required")], false, false, false, false⟩ :=
  (handleSubmit_blocks_iff_entries Unit
      (fun _ => [("username", "Username is required")])
      CallbackBehavior.throws () false).1 (by decide)

/-- C4 counterexample: a validator returning a single entry whose message
is the empty string produces NO non-empty field message, yet handleSubmit
stores it and returns without ever invoking the submit callback — the
claim's "otherwise ... invokes the async submit callback" fails because
the code tests the number of keys, not message non-emptiness. -/
theorem handleSubmit_blocks_on_empty_entry :
    hasNonEmptyMessage ((fun _ : Unit => [("field", "")]) ()) = false ∧
    (handleSubmit (T := Unit) (some (fun _ => [("field", "")]))
        CallbackBehavior.succeeds () false).callbackInvoked = false ∧
    (handleSubmit (T := Unit) (some (fun _ => [("field", "")]))
        CallbackBehavior.succeeds () false).errors = [("field", "")] :=
  ⟨rfl, rfl, rfl⟩

/-- C6: whenever the registration password and confirmation differ, the
registration validator emits the confirmPassword entry, so handleSubmit
returns before the submit callback (which performs the register network
call) ever runs. -/
theorem password_mismatch_blocks_register (v : RegisterFormData)
    (cb : CallbackBehavior) (s0 : Bool)
    (h : v.password ≠ v.confirmPassword) :
    ("confirmPassword", "Passwords do not match") ∈ validateForm v ∧
    (handleSubmit (some validateForm) cb v s0).callbackInvoked = false := by
  have hmem : ("confirmPassword", "Passwords do not match") ∈ validateForm v := by
    simp [validateForm, h]
  refine ⟨hmem, ?_⟩
  have hl : 0 < (validateForm v).length :=
    List.length_pos.mpr (List.ne_nil_of_mem hmem)
  simp [handleSubmit, hl]

/-- C6 witness at a concrete mismatched registration submission. -/
theorem password_mismatch_blocks_register_witness :
    ("confirmPassword", "Passwords do not match") ∈
      validateForm ⟨"alice", "alice@mail.com", "12345678", "87654321", "", ""⟩ ∧
    (handleSubmit (some validateForm) CallbackBehavior.succeeds
        ⟨"alice", "alice@mail.com", "12345678", "87654321", "", ""⟩
        false).callbackInvoked = false :=
  password_mismatch_blocks_register
    ⟨"alice", "alice@mail.com", "12345678", "87654321", "", ""⟩
    CallbackBehavior.succeeds false (by decide)

/-- C7: the resolved theme equals the preference when it is light or dark;
for preference system it is dark exactly when the OS dark-mode signal
holds; and toggleTheme persists the flip of the previous resolved value as
the new preference, which is therefore never system. -/
theorem theme_resolution_and_toggle (osPrefersDark : Bool)
    (r : ResolvedTheme) (st : Store) :
    updateResolvedTheme Theme.light osPrefersDark = ResolvedTheme.light ∧
    updateResolvedTheme Theme.dark osPrefersDark = ResolvedTheme.dark ∧
    (updateResolvedTheme Theme.system osPrefersDark = ResolvedTheme.dark ↔
      osPrefersDark = true) ∧
    (toggleTheme ResolvedTheme.light st).1 = Theme.dark ∧
    (toggleTheme ResolvedTheme.dark st).1 = Theme.light ∧
    (toggleTheme r st).1 ≠ Theme.system := by
  cases osPrefersDark <;> cases r <;>
    simp [updateResolvedTheme, toggleTheme, setThemeAndPersist]

/-- C8: the validators are pure functions returning the empty string
exactly on valid input: required accepts exactly strings non-empty after
trimming; email accepts exactly the strings matching
non-space-chars at-sign non-space-chars dot non-space-chars (the
declarative pattern matchesEmailPattern); username accepts exactly
non-empty-after-trim strings of length at least 3 whose characters are all
letters, digits or underscore; password accepts exactly non-empty strings
of length at least 8; and the spec's concrete examples evaluate as
stated. -/
theorem validators_characterization (v : String) :
    (validators_required v = "" ↔ jsTrim v ≠ "") ∧
    (validators_email v = "" ↔ matchesEmailPattern v) ∧
    (validators_username v = "" ↔
      (jsTrim v ≠ "" ∧ 3 ≤ v.length ∧ ∀ ch ∈ v.data, usernameChar ch = true)) ∧
    (validators_password v = "" ↔ (v ≠ "" ∧ 8 ≤ v.length)) ∧
    validators_username "ab" = "Username must be at least 3 characters" ∧
    validators_email "a@b" ≠ "" ∧
    validators_password "short" = "Password must be at least 8 characters" ∧
    validators_password "longenough1" = "" := by
  refine ⟨?_, ?_, ?_, ?_, by decide, by decide, by decide, by decide⟩
  · by_cases h : jsTrim v = "" <;> simp [validators_required, h]
  · have he : validators_email v = "" ↔ emailTest v = true := by
      by_cases h : emailTest v <;> simp [validators_email, h]
    exact he.trans (emailTest_iff v)
  · by_cases h1 : jsTrim v = ""
    · simp [validators_username, h1]
    · by_cases h2 : v.length < 3
      · have h2a : ¬ (3 ≤ v.length) := by omega
        simp [validators_username, h1, h2, h2a]
      · by_cases h3 : v.data.all usernameChar
        · have h2b : 3 ≤ v.length := by omega
          simp [validators_username, h1, h2, h3, h2b]
          exact List.all_eq_true.mp h3
        · have h3f : v.data.all usernameChar = false := by
            simpa using h3
          have h3b : ¬ ∀ ch ∈ v.data, usernameChar ch = true :=
            fun hf => h3 (List.all_eq_true.mpr hf)
          simp [validators_username, h1, h2, h3f, h3b]
  · by_cases h1 : v = ""
    · simp [validators_password, h1]
    · by_cases h2 : v.length < 8
      · have h2a : ¬ (8 ≤ v.length) := by omega
        simp [validators_password, h1, h2, h2a]
      · have h2b : 8 ≤ v.length := by omega
        simp [validators_password, h1, h2, h2b]
